import Mathlib

/-!
The file `boil/db.go`: capability interfaces, driver adapters, transaction entry points

A shallow embedding of `boil/db.go`.  The driver (`pgx`, `pgxpool`, `pgconn`)
and `context` are external packages: their objects are modelled as stubs, that
is records of behaviours over a driver-private state `σ`.  Every invocation of
a driver primitive is recorded in a call log kept next to the driver state, so
that "forwards exactly once, with this context and these arguments" is a
statement about the log.  A Go `panic` is the `Outcome.panic` result.
-/

set_option autoImplicit false

/-! ## External packages -/

namespace context

/-- A `context.Context` value.  `Background` is the empty context that is never
cancelled and has no deadline; every other context is identified by a number
and carries its cancellation state. -/
inductive Context where
  | Background
  | derived (id : Nat) (cancelled : Bool)
  deriving DecidableEq, Repr

end context

/-- An argument passed through `args ...interface{}`. -/
inductive Value where
  | null
  | int (i : Int)
  | str (s : String)
  deriving DecidableEq, Repr

/-- A Go `error` value; the nil error is `none` of `Option Error`. -/
structure Error where
  msg : String
  deriving DecidableEq, Repr

namespace pgconn

/-- The command tag `pgconn.CommandTag` a statement execution returns. -/
structure CommandTag where
  s : String
  deriving DecidableEq, Repr

end pgconn

namespace pgx

/-- The result set `pgx.Rows` of a query. -/
structure Rows where
  data : List (List Value)
  deriving DecidableEq, Repr

/-- The single row `pgx.Row` of a query. -/
structure Row where
  data : List Value
  deriving DecidableEq, Repr

/-- The value object `pgx.TxOptions`. -/
structure TxOptions where
  IsoLevel : String
  AccessMode : String
  DeferrableMode : String
  deriving DecidableEq, Repr

end pgx

/-- One invocation of a driver primitive on the object numbered `obj`. -/
inductive Call where
  | Exec (obj : Nat) (ctx : context.Context) (sql : String) (args : List Value)
  | Query (obj : Nat) (ctx : context.Context) (sql : String) (args : List Value)
  | QueryRow (obj : Nat) (ctx : context.Context) (sql : String) (args : List Value)
  | Commit (obj : Nat) (ctx : context.Context)
  | Rollback (obj : Nat) (ctx : context.Context)
  | Begin (obj : Nat)
  | BeginTx (obj : Nat) (ctx : context.Context) (opts : pgx.TxOptions)
  deriving DecidableEq, Repr

/-- The result of running a Go function: it returns, or the calling path is
aborted by a panic. -/
inductive Outcome (α : Type) where
  | ret (a : α)
  | panic (msg : String)
  deriving DecidableEq, Repr

/-- The message of the run-time panic raised by a method call through a nil
interface value. -/
def nilDereference : String :=
  "runtime error: invalid memory address or nil pointer dereference"

namespace pgx

/-- A non-nil dynamic value of the interface `pgx.Tx`: a stub transaction with
its context-first behaviours over the driver state. -/
structure TxImpl (σ : Type) where
  id : Nat
  onExec : context.Context → String → List Value → σ → (pgconn.CommandTag × Option Error) × σ
  onQuery : context.Context → String → List Value → σ → (Rows × Option Error) × σ
  onQueryRow : context.Context → String → List Value → σ → Row × σ
  onCommit : context.Context → σ → Option Error × σ
  onRollback : context.Context → σ → Option Error × σ

/-- A value of the interface type `pgx.Tx`; `none` is the nil interface. -/
def Tx (σ : Type) : Type := Option (TxImpl σ)

end pgx

namespace pgxpool

/-- A stub `*pgxpool.Pool` with its context-first behaviours. -/
structure Pool (σ : Type) where
  id : Nat
  onExec : context.Context → String → List Value → σ → (pgconn.CommandTag × Option Error) × σ
  onQuery : context.Context → String → List Value → σ → (pgx.Rows × Option Error) × σ
  onQueryRow : context.Context → String → List Value → σ → pgx.Row × σ

end pgxpool

/-! ## The observable world -/

namespace boil

/-- The dynamic value held by the process-wide handle.  Whether its type has
the method `Begin() (pgx.Tx, error)`, resp.
`BeginTx(context.Context, pgx.TxOptions) (pgx.Tx, error)`, is recorded by the
presence of the corresponding behaviour: this is what the type assertions of
`Begin` and `BeginTx` inspect. -/
structure Handle (σ : Type) where
  id : Nat
  onBegin : Option (σ → (pgx.Tx σ × Option Error) × σ)
  onBeginTx : Option (context.Context → pgx.TxOptions → σ → (pgx.Tx σ × Option Error) × σ)

/-- Everything a run can observe: the driver-private state, the log of driver
primitives invoked so far (oldest first), and the package variable
`currentDB` (`none` is the nil interface). -/
structure World (σ : Type) where
  drv : σ
  log : List Call
  currentDB : Option (Handle σ)

/-- Record the invocation `c` and install the driver state it leaves. -/
def World.record {σ : Type} (w : World σ) (c : Call) (s : σ) : World σ :=
  { w with drv := s, log := w.log ++ [c] }

end boil

open boil in
/-- The call `p.Exec(ctx, sql, args...)` on a pool. -/
def pgxpool.Pool.Exec {σ : Type} (p : pgxpool.Pool σ) (ctx : context.Context) (sql : String)
    (args : List Value) (w : World σ) : (pgconn.CommandTag × Option Error) × World σ :=
  ((p.onExec ctx sql args w.drv).1, w.record (Call.Exec p.id ctx sql args) (p.onExec ctx sql args w.drv).2)

open boil in
/-- The call `p.Query(ctx, sql, args...)` on a pool. -/
def pgxpool.Pool.Query {σ : Type} (p : pgxpool.Pool σ) (ctx : context.Context) (sql : String)
    (args : List Value) (w : World σ) : (pgx.Rows × Option Error) × World σ :=
  ((p.onQuery ctx sql args w.drv).1, w.record (Call.Query p.id ctx sql args) (p.onQuery ctx sql args w.drv).2)

open boil in
/-- The call `p.QueryRow(ctx, sql, args...)` on a pool. -/
def pgxpool.Pool.QueryRow {σ : Type} (p : pgxpool.Pool σ) (ctx : context.Context) (sql : String)
    (args : List Value) (w : World σ) : pgx.Row × World σ :=
  ((p.onQueryRow ctx sql args w.drv).1,
    w.record (Call.QueryRow p.id ctx sql args) (p.onQueryRow ctx sql args w.drv).2)

open boil in
/-- The call `t.Exec(ctx, sql, args...)` through a `pgx.Tx` interface value. -/
def pgx.Tx.Exec {σ : Type} (t : pgx.Tx σ) (ctx : context.Context) (sql : String)
    (args : List Value) (w : World σ) : Outcome (pgconn.CommandTag × Option Error) × World σ :=
  match t with
  | none => (Outcome.panic nilDereference, w)
  | some i =>
    (Outcome.ret (i.onExec ctx sql args w.drv).1,
      w.record (Call.Exec i.id ctx sql args) (i.onExec ctx sql args w.drv).2)

open boil in
/-- The call `t.Query(ctx, sql, args...)` through a `pgx.Tx` interface value. -/
def pgx.Tx.Query {σ : Type} (t : pgx.Tx σ) (ctx : context.Context) (sql : String)
    (args : List Value) (w : World σ) : Outcome (pgx.Rows × Option Error) × World σ :=
  match t with
  | none => (Outcome.panic nilDereference, w)
  | some i =>
    (Outcome.ret (i.onQuery ctx sql args w.drv).1,
      w.record (Call.Query i.id ctx sql args) (i.onQuery ctx sql args w.drv).2)

open boil in
/-- The call `t.QueryRow(ctx, sql, args...)` through a `pgx.Tx` interface value. -/
def pgx.Tx.QueryRow {σ : Type} (t : pgx.Tx σ) (ctx : context.Context) (sql : String)
    (args : List Value) (w : World σ) : Outcome pgx.Row × World σ :=
  match t with
  | none => (Outcome.panic nilDereference, w)
  | some i =>
    (Outcome.ret (i.onQueryRow ctx sql args w.drv).1,
      w.record (Call.QueryRow i.id ctx sql args) (i.onQueryRow ctx sql args w.drv).2)

open boil in
/-- The call `t.Commit(ctx)` through a `pgx.Tx` interface value. -/
def pgx.Tx.Commit {σ : Type} (t : pgx.Tx σ) (ctx : context.Context)
    (w : World σ) : Outcome (Option Error) × World σ :=
  match t with
  | none => (Outcome.panic nilDereference, w)
  | some i =>
    (Outcome.ret (i.onCommit ctx w.drv).1, w.record (Call.Commit i.id ctx) (i.onCommit ctx w.drv).2)

open boil in
/-- The call `t.Rollback(ctx)` through a `pgx.Tx` interface value. -/
def pgx.Tx.Rollback {σ : Type} (t : pgx.Tx σ) (ctx : context.Context)
    (w : World σ) : Outcome (Option Error) × World σ :=
  match t with
  | none => (Outcome.panic nilDereference, w)
  | some i =>
    (Outcome.ret (i.onRollback ctx w.drv).1, w.record (Call.Rollback i.id ctx) (i.onRollback ctx w.drv).2)

namespace boil

/-! ## `boil/db.go` -/

/-- The struct `PGXPoolContextExecutor`, embedding `*pgxpool.Pool`.  The
embedded pointer is a live pool: what a call through a nil `*pgxpool.Pool` does
is decided inside the driver, not in `db.go`. -/
structure PGXPoolContextExecutor (σ : Type) where
  Pool : pgxpool.Pool σ

/-- Method `Exec` of `*PGXPoolContextExecutor`. -/
def PGXPoolContextExecutor.Exec {σ : Type} (p : PGXPoolContextExecutor σ) (query : String)
    (args : List Value) : World σ → (pgconn.CommandTag × Option Error) × World σ :=
  p.Pool.Exec context.Context.Background query args

/-- Method `Query` of `*PGXPoolContextExecutor`. -/
def PGXPoolContextExecutor.Query {σ : Type} (p : PGXPoolContextExecutor σ) (query : String)
    (args : List Value) : World σ → (pgx.Rows × Option Error) × World σ :=
  p.Pool.Query context.Context.Background query args

/-- Method `QueryRow` of `*PGXPoolContextExecutor`. -/
def PGXPoolContextExecutor.QueryRow {σ : Type} (p : PGXPoolContextExecutor σ) (query : String)
    (args : List Value) : World σ → pgx.Row × World σ :=
  p.Pool.QueryRow context.Context.Background query args

/-- Method `ExecContext` of `*PGXPoolContextExecutor`. -/
def PGXPoolContextExecutor.ExecContext {σ : Type} (p : PGXPoolContextExecutor σ)
    (ctx : context.Context) (query : String) (args : List Value) :
    World σ → (pgconn.CommandTag × Option Error) × World σ :=
  p.Pool.Exec ctx query args

/-- Method `QueryContext` of `*PGXPoolContextExecutor`. -/
def PGXPoolContextExecutor.QueryContext {σ : Type} (p : PGXPoolContextExecutor σ)
    (ctx : context.Context) (query : String) (args : List Value) :
    World σ → (pgx.Rows × Option Error) × World σ :=
  p.Pool.Query ctx query args

/-- Method `QueryRowContext` of `*PGXPoolContextExecutor`. -/
def PGXPoolContextExecutor.QueryRowContext {σ : Type} (p : PGXPoolContextExecutor σ)
    (ctx : context.Context) (query : String) (args : List Value) :
    World σ → pgx.Row × World σ :=
  p.Pool.QueryRow ctx query args

/-- The struct `PGXPoolTransactor`, embedding the interface `pgx.Tx`. -/
structure PGXPoolTransactor (σ : Type) where
  Tx : pgx.Tx σ

/-- Method `Rollback` of `*PGXPoolTransactor`. -/
def PGXPoolTransactor.Rollback {σ : Type} (p : PGXPoolTransactor σ) :
    World σ → Outcome (Option Error) × World σ :=
  p.Tx.Rollback context.Context.Background

/-- Method `Exec` of `*PGXPoolTransactor`. -/
def PGXPoolTransactor.Exec {σ : Type} (p : PGXPoolTransactor σ) (query : String)
    (args : List Value) : World σ → Outcome (pgconn.CommandTag × Option Error) × World σ :=
  p.Tx.Exec context.Context.Background query args

/-- Method `Query` of `*PGXPoolTransactor`. -/
def PGXPoolTransactor.Query {σ : Type} (p : PGXPoolTransactor σ) (query : String)
    (args : List Value) : World σ → Outcome (pgx.Rows × Option Error) × World σ :=
  p.Tx.Query context.Context.Background query args

/-- Method `QueryRow` of `*PGXPoolTransactor`. -/
def PGXPoolTransactor.QueryRow {σ : Type} (p : PGXPoolTransactor σ) (query : String)
    (args : List Value) : World σ → Outcome pgx.Row × World σ :=
  p.Tx.QueryRow context.Context.Background query args

/-- Method `Commit` of `*PGXPoolTransactor`: not declared in `db.go`, it is the
method of the embedded `pgx.Tx`, promoted by the embedding. -/
def PGXPoolTransactor.Commit {σ : Type} (p : PGXPoolTransactor σ) (ctx : context.Context) :
    World σ → Outcome (Option Error) × World σ :=
  p.Tx.Commit ctx

/-- A non-nil value of the interface `Beginner`: it has `Begin() (pgx.Tx, error)`. -/
structure Beginner (σ : Type) where
  id : Nat
  onBegin : σ → (pgx.Tx σ × Option Error) × σ

/-- The call `creator.Begin()`. -/
def Beginner.Begin {σ : Type} (creator : Beginner σ) (w : World σ) :
    (pgx.Tx σ × Option Error) × World σ :=
  ((creator.onBegin w.drv).1, w.record (Call.Begin creator.id) (creator.onBegin w.drv).2)

/-- The type assertion `currentDB.(Beginner)`; `none` is `ok == false`. -/
def Handle.assertBeginner {σ : Type} (db : Option (Handle σ)) : Option (Beginner σ) :=
  match db with
  | none => none
  | some h =>
    match h.onBegin with
    | none => none
    | some b => some { id := h.id, onBegin := b }

/-- Function `Begin`.  The returned `Transactor` is nil (`none`) or the
`*PGXPoolTransactor` just built. -/
def Begin {σ : Type} (w : World σ) :
    Outcome (Option (PGXPoolTransactor σ) × Option Error) × World σ :=
  match Handle.assertBeginner w.currentDB with
  | none => (Outcome.panic "database does not support transactions", w)
  | some creator =>
    match creator.Begin w with
    | ((tx, err), w1) =>
      match err with
      | some e => (Outcome.ret (none, some e), w1)
      | none => (Outcome.ret (some { Tx := tx }, none), w1)

/-- The struct `PGXPoolContextTransactor`, embedding the interface `pgx.Tx`. -/
structure PGXPoolContextTransactor (σ : Type) where
  Tx : pgx.Tx σ

/-- Method `ExecContext` of `*PGXPoolContextTransactor`. -/
def PGXPoolContextTransactor.ExecContext {σ : Type} (p : PGXPoolContextTransactor σ)
    (ctx : context.Context) (query : String) (args : List Value) :
    World σ → Outcome (pgconn.CommandTag × Option Error) × World σ :=
  p.Tx.Exec ctx query args

/-- Method `QueryContext` of `*PGXPoolContextTransactor`. -/
def PGXPoolContextTransactor.QueryContext {σ : Type} (p : PGXPoolContextTransactor σ)
    (ctx : context.Context) (query : String) (args : List Value) :
    World σ → Outcome (pgx.Rows × Option Error) × World σ :=
  p.Tx.Query ctx query args

/-- Method `QueryRowContext` of `*PGXPoolContextTransactor`. -/
def PGXPoolContextTransactor.QueryRowContext {σ : Type} (p : PGXPoolContextTransactor σ)
    (ctx : context.Context) (query : String) (args : List Value) :
    World σ → Outcome pgx.Row × World σ :=
  p.Tx.QueryRow ctx query args

/-- A non-nil value of the interface `ContextBeginner`: it has
`BeginTx(context.Context, pgx.TxOptions) (pgx.Tx, error)`. -/
structure ContextBeginner (σ : Type) where
  id : Nat
  onBeginTx : context.Context → pgx.TxOptions → σ → (pgx.Tx σ × Option Error) × σ

/-- The call `creator.BeginTx(ctx, opts)`. -/
def ContextBeginner.BeginTx {σ : Type} (creator : ContextBeginner σ) (ctx : context.Context)
    (opts : pgx.TxOptions) (w : World σ) : (pgx.Tx σ × Option Error) × World σ :=
  ((creator.onBeginTx ctx opts w.drv).1,
    w.record (Call.BeginTx creator.id ctx opts) (creator.onBeginTx ctx opts w.drv).2)

/-- The type assertion `currentDB.(ContextBeginner)`; `none` is `ok == false`. -/
def Handle.assertContextBeginner {σ : Type} (db : Option (Handle σ)) :
    Option (ContextBeginner σ) :=
  match db with
  | none => none
  | some h =>
    match h.onBeginTx with
    | none => none
    | some b => some { id := h.id, onBeginTx := b }

/-- Function `BeginTx`.  The returned `pgx.Tx` is nil (`none`) or the
`*PGXPoolContextTransactor` just built. -/
def BeginTx {σ : Type} (ctx : context.Context) (opts : pgx.TxOptions) (w : World σ) :
    Outcome (Option (PGXPoolContextTransactor σ) × Option Error) × World σ :=
  match Handle.assertContextBeginner w.currentDB with
  | none => (Outcome.panic "database does not support context-aware transactions", w)
  | some creator =>
    match creator.BeginTx ctx opts w with
    | ((tx, err), w1) =>
      match err with
      | some e => (Outcome.ret (none, some e), w1)
      | none => (Outcome.ret (some { Tx := tx }, none), w1)

/-- Modelled from the spec: `SetDB`, the mutator of the process-wide handle,
is defined in a file of the package that is not among the sources; the spec
has it install its argument as the current handle `currentDB`. -/
def SetDB {σ : Type} (db : Option (Handle σ)) (w : World σ) : World σ :=
  { w with currentDB := db }

/-- Modelled from the spec: `GetDB`, the accessor of the process-wide handle,
is defined in a file of the package that is not among the sources; the spec
has it return the current handle `currentDB`. -/
def GetDB {σ : Type} (w : World σ) : Option (Handle σ) :=
  w.currentDB

end boil

/-! ## Method sets and interface satisfaction -/

/-- The Go types that occur in the signatures below. -/
inductive GoType where
  | string
  | error
  | variadicAny
  | Context
  | CommandTag
  | Rows
  | Row
  | Tx
  | TxOptions
  | named (n : String)
  deriving DecidableEq, Repr

/-- A method signature: the parameter types and the result types, in order. -/
structure Signature where
  params : List GoType
  results : List GoType
  deriving DecidableEq, Repr

/-- A method of a method set: its name and its signature. -/
structure Method where
  name : String
  sig : Signature
  deriving DecidableEq, Repr

/-- A type with method set `ms` implements the interface declaring `decl` when
every declared method is in `ms` under the same name with the same signature. -/
def implements (ms decl : List Method) : Bool :=
  decl.all (fun m => ms.contains m)

/-- The signature a method set gives to the method called `name`, if it has one. -/
def lookupMethod (ms : List Method) (name : String) : Option Signature :=
  (ms.find? (fun m => m.name == name)).map Method.sig

/-- The method set of (a pointer to) a struct that declares the methods
`declared` and embeds a type whose method set is `embedded`: the embedded
methods are promoted, except those whose name a declared method takes. -/
def structMethods (declared embedded : List Method) : List Method :=
  declared ++ embedded.filter (fun m => !(declared.any (fun d => d.name == m.name)))

/-- The method set of the interface `pgx.Tx` of the driver.  `db.go` calls
`Rollback`, `Exec`, `Query` and `QueryRow` of it with exactly these argument
lists. -/
def pgx.Tx.methods : List Method :=
  [ ⟨"Begin", ⟨[.Context], [.Tx, .error]⟩⟩,
    ⟨"Commit", ⟨[.Context], [.error]⟩⟩,
    ⟨"Rollback", ⟨[.Context], [.error]⟩⟩,
    ⟨"CopyFrom", ⟨[.Context, .named "Identifier", .named "[]string", .named "CopyFromSource"],
      [.named "int64", .error]⟩⟩,
    ⟨"SendBatch", ⟨[.Context, .named "*Batch"], [.named "BatchResults"]⟩⟩,
    ⟨"LargeObjects", ⟨[], [.named "LargeObjects"]⟩⟩,
    ⟨"Prepare", ⟨[.Context, .string, .string], [.named "*pgconn.StatementDescription", .error]⟩⟩,
    ⟨"Exec", ⟨[.Context, .string, .variadicAny], [.CommandTag, .error]⟩⟩,
    ⟨"Query", ⟨[.Context, .string, .variadicAny], [.Rows, .error]⟩⟩,
    ⟨"QueryRow", ⟨[.Context, .string, .variadicAny], [.Row]⟩⟩,
    ⟨"Conn", ⟨[], [.named "*Conn"]⟩⟩ ]

namespace boil

/-- The methods the interface `Executor` declares. -/
def Executor.methods : List Method :=
  [ ⟨"Exec", ⟨[.string, .variadicAny], [.CommandTag, .error]⟩⟩,
    ⟨"Query", ⟨[.string, .variadicAny], [.Rows, .error]⟩⟩,
    ⟨"QueryRow", ⟨[.string, .variadicAny], [.Row]⟩⟩ ]

/-- The methods of the interface `ContextExecutor`: it embeds `Executor`. -/
def ContextExecutor.methods : List Method :=
  Executor.methods ++
  [ ⟨"ExecContext", ⟨[.Context, .string, .variadicAny], [.CommandTag, .error]⟩⟩,
    ⟨"QueryContext", ⟨[.Context, .string, .variadicAny], [.Rows, .error]⟩⟩,
    ⟨"QueryRowContext", ⟨[.Context, .string, .variadicAny], [.Row]⟩⟩ ]

/-- The methods of the interface `Transactor`: it embeds `Executor`. -/
def Transactor.methods : List Method :=
  [ ⟨"Commit", ⟨[.Context], [.error]⟩⟩,
    ⟨"Rollback", ⟨[], [.error]⟩⟩ ] ++ Executor.methods

/-- The method the interface `Beginner` declares. -/
def Beginner.methods : List Method :=
  [ ⟨"Begin", ⟨[], [.Tx, .error]⟩⟩ ]

/-- The methods of the interface `ContextTransactor`: it embeds `ContextExecutor`. -/
def ContextTransactor.methods : List Method :=
  [ ⟨"Commit", ⟨[.Context], [.error]⟩⟩,
    ⟨"Rollback", ⟨[], [.error]⟩⟩ ] ++ ContextExecutor.methods

/-- The method the interface `ContextBeginner` declares. -/
def ContextBeginner.methods : List Method :=
  [ ⟨"BeginTx", ⟨[.Context, .TxOptions], [.Tx, .error]⟩⟩ ]

/-- The method set of `*PGXPoolContextExecutor`: the six methods `db.go`
declares on it and the methods promoted from the embedded `*pgxpool.Pool`,
whose method set is `embedded`.  The declaration
`var s ContextExecutor = &PGXPoolContextExecutor` of `db.go` asserts that this
method set implements `ContextExecutor`. -/
def PGXPoolContextExecutor.methods (embedded : List Method) : List Method :=
  structMethods
    [ ⟨"Exec", ⟨[.string, .variadicAny], [.CommandTag, .error]⟩⟩,
      ⟨"Query", ⟨[.string, .variadicAny], [.Rows, .error]⟩⟩,
      ⟨"QueryRow", ⟨[.string, .variadicAny], [.Row]⟩⟩,
      ⟨"ExecContext", ⟨[.Context, .string, .variadicAny], [.CommandTag, .error]⟩⟩,
      ⟨"QueryContext", ⟨[.Context, .string, .variadicAny], [.Rows, .error]⟩⟩,
      ⟨"QueryRowContext", ⟨[.Context, .string, .variadicAny], [.Row]⟩⟩ ]
    embedded

/-- The method set of `*PGXPoolTransactor`: the four methods `db.go` declares
on it and the methods promoted from the embedded `pgx.Tx`. -/
def PGXPoolTransactor.methods : List Method :=
  structMethods
    [ ⟨"Rollback", ⟨[], [.error]⟩⟩,
      ⟨"Exec", ⟨[.string, .variadicAny], [.CommandTag, .error]⟩⟩,
      ⟨"Query", ⟨[.string, .variadicAny], [.Rows, .error]⟩⟩,
      ⟨"QueryRow", ⟨[.string, .variadicAny], [.Row]⟩⟩ ]
    pgx.Tx.methods

/-- The method set of `*PGXPoolContextTransactor`: the three methods `db.go`
declares on it and the methods promoted from the embedded `pgx.Tx`. -/
def PGXPoolContextTransactor.methods : List Method :=
  structMethods
    [ ⟨"ExecContext", ⟨[.Context, .string, .variadicAny], [.CommandTag, .error]⟩⟩,
      ⟨"QueryContext", ⟨[.Context, .string, .variadicAny], [.Rows, .error]⟩⟩,
      ⟨"QueryRowContext", ⟨[.Context, .string, .variadicAny], [.Row]⟩⟩ ]
    pgx.Tx.methods

end boil

/-! ## Stub drivers -/

namespace stub

/-- A stub transaction over a counter of the terminal calls received so far:
the first `Rollback` (or `Commit`) succeeds, every later one reports that the
transaction is already closed. -/
def tx : pgx.TxImpl Nat where
  id := 7
  onExec := fun _ sql _ n => ((⟨sql⟩, none), n)
  onQuery := fun _ _ args n => ((⟨[args]⟩, none), n)
  onQueryRow := fun _ _ args n => (⟨args⟩, n)
  onCommit := fun _ n => (if n = 0 then none else some ⟨"already closed"⟩, n + 1)
  onRollback := fun _ n => (if n = 0 then none else some ⟨"already closed"⟩, n + 1)

/-- A stub pool that answers every statement with a tag holding the statement text. -/
def pool : pgxpool.Pool Nat where
  id := 3
  onExec := fun _ sql _ n => ((⟨sql⟩, none), n + 1)
  onQuery := fun _ _ args n => ((⟨[args]⟩, none), n + 1)
  onQueryRow := fun _ _ args n => (⟨args⟩, n + 1)

/-- A stub handle with both capabilities.  `Begin` always opens `tx`; `BeginTx`
honours cancellation: under a cancelled context it fails with the context's
cancellation error. -/
def db : boil.Handle Nat where
  id := 1
  onBegin := some (fun n => ((some tx, none), n))
  onBeginTx := some (fun ctx _ n =>
    match ctx with
    | context.Context.derived _ true => ((none, some ⟨"context canceled"⟩), n)
    | _ => ((some tx, none), n))

/-- A stub handle that can run statements only: it has neither `Begin` nor `BeginTx`. -/
def plain : boil.Handle Nat where
  id := 2
  onBegin := none
  onBeginTx := none

/-- A stub handle whose `Begin` and `BeginTx` return an error together with a
transaction handle. -/
def failing : boil.Handle Nat where
  id := 4
  onBegin := some (fun n => ((some tx, some ⟨"connection refused"⟩), n + 1))
  onBeginTx := some (fun _ _ n => ((some tx, some ⟨"connection refused"⟩), n + 1))

/-- The initial world around a current handle: fresh driver, empty call log. -/
def world (h : Option (boil.Handle Nat)) : boil.World Nat :=
  { drv := 0, log := [], currentDB := h }

end stub

/-! ## Theorems -/

namespace boil

/-- C1: when the current handle does not satisfy `Beginner` (it is nil or has no
`Begin`), `Begin` panics, returning no value at all, and leaves the world as it
was: no driver primitive is invoked.  Likewise `BeginTx`, for every context and
options, when the handle does not satisfy `ContextBeginner`. -/
theorem capability_mismatch_panics {σ : Type} (w : World σ) :
    ((∀ h, w.currentDB = some h → h.onBegin = none) →
      Begin w = (Outcome.panic "database does not support transactions", w) ∧
      ∀ r, (Begin w).1 ≠ Outcome.ret r) ∧
    ((∀ h, w.currentDB = some h → h.onBeginTx = none) →
      ∀ ctx opts,
        BeginTx ctx opts w =
          (Outcome.panic "database does not support context-aware transactions", w) ∧
        ∀ r, (BeginTx ctx opts w).1 ≠ Outcome.ret r) := by
  constructor
  · intro hno
    have ha : Handle.assertBeginner w.currentDB = none := by
      unfold Handle.assertBeginner
      cases hdb : w.currentDB with
      | none => rfl
      | some h => simp [hno h hdb]
    have hB : Begin w = (Outcome.panic "database does not support transactions", w) := by
      simp [Begin, ha]
    refine ⟨hB, ?_⟩
    intro r
    rw [hB]
    simp
  · intro hno ctx opts
    have ha : Handle.assertContextBeginner w.currentDB = none := by
      unfold Handle.assertContextBeginner
      cases hdb : w.currentDB with
      | none => rfl
      | some h => simp [hno h hdb]
    have hB : BeginTx ctx opts w =
        (Outcome.panic "database does not support context-aware transactions", w) := by
      simp [BeginTx, ha]
    refine ⟨hB, ?_⟩
    intro r
    rw [hB]
    simp

/-- Witness of C1 at the stub handle without capabilities. -/
theorem capability_mismatch_panics_witness :
    Begin (stub.world (some stub.plain)) =
      (Outcome.panic "database does not support transactions", stub.world (some stub.plain)) ∧
    BeginTx (context.Context.derived 1 false) ⟨"serializable", "read only", ""⟩
        (stub.world (some stub.plain)) =
      (Outcome.panic "database does not support context-aware transactions",
        stub.world (some stub.plain)) :=
  ⟨((capability_mismatch_panics (stub.world (some stub.plain))).1
      (fun h hh => by cases hh; rfl)).1,
   ((capability_mismatch_panics (stub.world (some stub.plain))).2
      (fun h hh => by cases hh; rfl) _ _).1⟩

/-- C2: when the current handle satisfies `Beginner` and its `Begin` fails with
the error `e`, the package-level `Begin` returns a nil `Transactor` together with
exactly `e`, and the handle's `Begin` has been invoked exactly once (the call
log grows by that single call, the driver state is the one that call left). -/
theorem Begin_propagates_error {σ : Type} (w : World σ) (h : Handle σ)
    (b : σ → (pgx.Tx σ × Option Error) × σ) (t : pgx.Tx σ) (e : Error) (s : σ)
    (hdb : w.currentDB = some h) (hb : h.onBegin = some b)
    (hfail : b w.drv = ((t, some e), s)) :
    Begin w = (Outcome.ret (none, some e), w.record (Call.Begin h.id) s) ∧
    (Begin w).2.log = w.log ++ [Call.Begin h.id] := by
  have hB : Begin w = (Outcome.ret (none, some e), w.record (Call.Begin h.id) s) := by
    simp [Begin, Handle.assertBeginner, hdb, hb, Beginner.Begin, hfail]
  refine ⟨hB, ?_⟩
  rw [hB]
  rfl

/-- Witness of C2 at the stub handle whose `Begin` fails. -/
theorem Begin_propagates_error_witness :
    Begin (stub.world (some stub.failing)) =
      (Outcome.ret (none, some ⟨"connection refused"⟩),
        (stub.world (some stub.failing)).record (Call.Begin 4) 1) ∧
    (Begin (stub.world (some stub.failing))).2.log = [Call.Begin 4] :=
  Begin_propagates_error (stub.world (some stub.failing)) stub.failing
    (fun n => ((some stub.tx, some ⟨"connection refused"⟩), n + 1)) (some stub.tx)
    ⟨"connection refused"⟩ 1 rfl rfl rfl

/-- C3: when the current handle satisfies `Beginner` and its `Begin` succeeds
with the transaction handle `t`, the package-level `Begin` returns a nil error
and a `PGXPoolTransactor` whose embedded transaction is exactly `t`.  The
method set of that adapter contains every method of `Transactor` with the
declared signature, and its `Commit` is the one of `t`. -/
theorem Begin_wraps_transaction {σ : Type} (w : World σ) (h : Handle σ)
    (b : σ → (pgx.Tx σ × Option Error) × σ) (t : pgx.Tx σ) (s : σ)
    (hdb : w.currentDB = some h) (hb : h.onBegin = some b)
    (hok : b w.drv = ((t, none), s)) :
    Begin w = (Outcome.ret (some { Tx := t }, none), w.record (Call.Begin h.id) s) ∧
    implements PGXPoolTransactor.methods Transactor.methods = true ∧
    lookupMethod PGXPoolTransactor.methods "Commit" = lookupMethod pgx.Tx.methods "Commit" ∧
    ∀ ctx w1, PGXPoolTransactor.Commit { Tx := t } ctx w1 = t.Commit ctx w1 := by
  refine ⟨?_, by decide, by decide, fun _ _ => rfl⟩
  simp [Begin, Handle.assertBeginner, hdb, hb, Beginner.Begin, hok]

/-- Witness of C3 at the stub handle whose `Begin` opens the stub transaction. -/
theorem Begin_wraps_transaction_witness :
    Begin (stub.world (some stub.db)) =
      (Outcome.ret (some { Tx := some stub.tx }, none),
        (stub.world (some stub.db)).record (Call.Begin 1) 0) ∧
    implements PGXPoolTransactor.methods Transactor.methods = true ∧
    PGXPoolTransactor.Commit { Tx := some stub.tx } context.Context.Background
        (stub.world (some stub.db)) =
      pgx.Tx.Commit (some stub.tx) context.Context.Background (stub.world (some stub.db)) :=
  have key := Begin_wraps_transaction (stub.world (some stub.db)) stub.db
    (fun n => ((some stub.tx, none), n)) (some stub.tx) 0 rfl rfl rfl
  ⟨key.1, key.2.1, key.2.2.2 _ _⟩

/-- C4: when the current handle satisfies `ContextBeginner`, `BeginTx ctx opts`
invokes the handle's `BeginTx` exactly once, with the same `ctx` and the same
`opts`; when that call fails with the error `e`, `BeginTx` returns a nil
transaction handle together with exactly `e`. -/
theorem BeginTx_forwards_ctx_opts {σ : Type} (w : World σ) (h : Handle σ)
    (b : context.Context → pgx.TxOptions → σ → (pgx.Tx σ × Option Error) × σ)
    (ctx : context.Context) (opts : pgx.TxOptions)
    (hdb : w.currentDB = some h) (hb : h.onBeginTx = some b) :
    (BeginTx ctx opts w).2 = w.record (Call.BeginTx h.id ctx opts) (b ctx opts w.drv).2 ∧
    (BeginTx ctx opts w).2.log = w.log ++ [Call.BeginTx h.id ctx opts] ∧
    ∀ t e, (b ctx opts w.drv).1 = (t, some e) →
      (BeginTx ctx opts w).1 = Outcome.ret (none, some e) := by
  have hW : (BeginTx ctx opts w).2 =
      w.record (Call.BeginTx h.id ctx opts) (b ctx opts w.drv).2 := by
    simp only [BeginTx, Handle.assertContextBeginner, hdb, hb, ContextBeginner.BeginTx]
    cases (b ctx opts w.drv).1.2 <;> rfl
  refine ⟨hW, ?_, ?_⟩
  · rw [hW]
    rfl
  · intro t e hte
    simp only [BeginTx, Handle.assertContextBeginner, hdb, hb, ContextBeginner.BeginTx, hte]

/-- Witness of C4 at the stub handle that honours cancellation, under a
cancelled context. -/
theorem BeginTx_forwards_ctx_opts_witness :
    (BeginTx (context.Context.derived 5 true) ⟨"serializable", "read only", "deferrable"⟩
        (stub.world (some stub.db))).2.log =
      [Call.BeginTx 1 (context.Context.derived 5 true)
        ⟨"serializable", "read only", "deferrable"⟩] ∧
    (BeginTx (context.Context.derived 5 true) ⟨"serializable", "read only", "deferrable"⟩
        (stub.world (some stub.db))).1 = Outcome.ret (none, some ⟨"context canceled"⟩) :=
  ⟨(BeginTx_forwards_ctx_opts (stub.world (some stub.db)) stub.db _
      (context.Context.derived 5 true) ⟨"serializable", "read only", "deferrable"⟩
      rfl rfl).2.1,
   (BeginTx_forwards_ctx_opts (stub.world (some stub.db)) stub.db _
      (context.Context.derived 5 true) ⟨"serializable", "read only", "deferrable"⟩
      rfl rfl).2.2 none ⟨"context canceled"⟩ rfl⟩

/-- C5: on the pool adapter, each of the context-free `Exec`, `Query` and
`QueryRow` is the same computation as `ExecContext`, `QueryContext`, resp.
`QueryRowContext`, under the background context: it invokes the pool's
primitive exactly once with the background context, the same query and the
same arguments, and returns what that invocation returns.  In particular
`Exec "SELECT 1"` records one invocation with that query and no argument. -/
theorem pool_adapter_context_free {σ : Type} (p : PGXPoolContextExecutor σ) (query : String)
    (args : List Value) (w : World σ) :
    (p.Exec query args w = p.ExecContext context.Context.Background query args w ∧
      p.Exec query args w =
        ((p.Pool.onExec context.Context.Background query args w.drv).1,
          w.record (Call.Exec p.Pool.id context.Context.Background query args)
            (p.Pool.onExec context.Context.Background query args w.drv).2)) ∧
    (p.Query query args w = p.QueryContext context.Context.Background query args w ∧
      p.Query query args w =
        ((p.Pool.onQuery context.Context.Background query args w.drv).1,
          w.record (Call.Query p.Pool.id context.Context.Background query args)
            (p.Pool.onQuery context.Context.Background query args w.drv).2)) ∧
    (p.QueryRow query args w = p.QueryRowContext context.Context.Background query args w ∧
      p.QueryRow query args w =
        ((p.Pool.onQueryRow context.Context.Background query args w.drv).1,
          w.record (Call.QueryRow p.Pool.id context.Context.Background query args)
            (p.Pool.onQueryRow context.Context.Background query args w.drv).2)) ∧
    (p.Exec query args w).2.log =
      w.log ++ [Call.Exec p.Pool.id context.Context.Background query args] ∧
    (p.Query query args w).2.log =
      w.log ++ [Call.Query p.Pool.id context.Context.Background query args] ∧
    (p.QueryRow query args w).2.log =
      w.log ++ [Call.QueryRow p.Pool.id context.Context.Background query args] ∧
    (p.Exec "SELECT 1" [] w).2.log =
      w.log ++ [Call.Exec p.Pool.id context.Context.Background "SELECT 1" []] :=
  ⟨⟨rfl, rfl⟩, ⟨rfl, rfl⟩, ⟨rfl, rfl⟩, rfl, rfl, rfl, rfl⟩

/-- C6: on the plain transaction adapter wrapping the transaction `t`,
`Rollback` invokes the rollback of `t` exactly once with the background context
and returns its error unchanged; `Exec`, `Query` and `QueryRow` likewise
forward once with the background context, the query and the arguments.  The
adapter has no state: when the rollback of `t` answers `e1` and then `e2`, two
calls of `Rollback` through the adapter return `e1` and then exactly `e2`, and
the log holds the two rollback invocations. -/
theorem PGXPoolTransactor_forwards {σ : Type} (p : PGXPoolTransactor σ) (t : pgx.TxImpl σ)
    (w : World σ) (hp : p.Tx = some t) :
    p.Rollback w =
      (Outcome.ret (t.onRollback context.Context.Background w.drv).1,
        w.record (Call.Rollback t.id context.Context.Background)
          (t.onRollback context.Context.Background w.drv).2) ∧
    (∀ query args,
      p.Exec query args w =
        (Outcome.ret (t.onExec context.Context.Background query args w.drv).1,
          w.record (Call.Exec t.id context.Context.Background query args)
            (t.onExec context.Context.Background query args w.drv).2) ∧
      p.Query query args w =
        (Outcome.ret (t.onQuery context.Context.Background query args w.drv).1,
          w.record (Call.Query t.id context.Context.Background query args)
            (t.onQuery context.Context.Background query args w.drv).2) ∧
      p.QueryRow query args w =
        (Outcome.ret (t.onQueryRow context.Context.Background query args w.drv).1,
          w.record (Call.QueryRow t.id context.Context.Background query args)
            (t.onQueryRow context.Context.Background query args w.drv).2)) ∧
    (∀ e1 e2 s1 s2,
      t.onRollback context.Context.Background w.drv = (e1, s1) →
      t.onRollback context.Context.Background s1 = (e2, s2) →
      (p.Rollback w).1 = Outcome.ret e1 ∧
      (p.Rollback (p.Rollback w).2).1 = Outcome.ret e2 ∧
      (p.Rollback (p.Rollback w).2).2.log =
        w.log ++ [Call.Rollback t.id context.Context.Background,
          Call.Rollback t.id context.Context.Background]) := by
  have hR : ∀ w1 : World σ, p.Rollback w1 =
      (Outcome.ret (t.onRollback context.Context.Background w1.drv).1,
        w1.record (Call.Rollback t.id context.Context.Background)
          (t.onRollback context.Context.Background w1.drv).2) := by
    intro w1
    simp only [PGXPoolTransactor.Rollback, hp]
    rfl
  refine ⟨hR w, ?_, ?_⟩
  · intro query args
    simp only [PGXPoolTransactor.Exec, PGXPoolTransactor.Query, PGXPoolTransactor.QueryRow, hp]
    exact ⟨rfl, rfl, rfl⟩
  · intro e1 e2 s1 s2 h1 h2
    rw [hR (p.Rollback w).2, hR w]
    simp [World.record, h1, h2]

/-- Witness of C6 at the stub transaction whose rollback reports "already
closed" from its second call on. -/
theorem PGXPoolTransactor_forwards_witness :
    (PGXPoolTransactor.Rollback { Tx := some stub.tx } (stub.world none)).1 = Outcome.ret none ∧
    (PGXPoolTransactor.Rollback { Tx := some stub.tx }
      (PGXPoolTransactor.Rollback { Tx := some stub.tx } (stub.world none)).2).1 =
        Outcome.ret (some ⟨"already closed"⟩) ∧
    (PGXPoolTransactor.Rollback { Tx := some stub.tx }
      (PGXPoolTransactor.Rollback { Tx := some stub.tx } (stub.world none)).2).2.log =
        [Call.Rollback 7 context.Context.Background, Call.Rollback 7 context.Context.Background] :=
  (PGXPoolTransactor_forwards { Tx := some stub.tx } stub.tx (stub.world none) rfl).2.2
    none (some ⟨"already closed"⟩) 1 2 rfl rfl

/-- C7: the method set of `PGXPoolContextTransactor` does not contain the
methods of `ContextTransactor`.  It has `Commit(ctx)`, `ExecContext`,
`QueryContext` and `QueryRowContext` as declared, but its `Rollback`, `Exec`,
`Query` and `QueryRow` are the context-first methods promoted from `pgx.Tx`,
not the context-free ones of `ContextTransactor` and `Executor`; so it
implements `pgx.Tx` and neither `ContextTransactor` nor `ContextExecutor`,
whereas the sibling `PGXPoolTransactor`, which declares those four methods,
implements `Transactor`, and the sibling `PGXPoolContextExecutor`, which
declares all six, implements `ContextExecutor` whatever the pool contributes. -/
theorem PGXPoolContextTransactor_method_set :
    (∀ embedded,
      implements (PGXPoolContextExecutor.methods embedded) ContextExecutor.methods = true) ∧
    implements PGXPoolContextTransactor.methods ContextTransactor.methods = false ∧
    implements PGXPoolContextTransactor.methods ContextExecutor.methods = false ∧
    implements PGXPoolContextTransactor.methods pgx.Tx.methods = true ∧
    lookupMethod PGXPoolContextTransactor.methods "Rollback" = some ⟨[.Context], [.error]⟩ ∧
    lookupMethod ContextTransactor.methods "Rollback" = some ⟨[], [.error]⟩ ∧
    lookupMethod PGXPoolContextTransactor.methods "Exec" =
      some ⟨[.Context, .string, .variadicAny], [.CommandTag, .error]⟩ ∧
    lookupMethod ContextTransactor.methods "Exec" =
      some ⟨[.string, .variadicAny], [.CommandTag, .error]⟩ ∧
    lookupMethod PGXPoolContextTransactor.methods "Query" =
      some ⟨[.Context, .string, .variadicAny], [.Rows, .error]⟩ ∧
    lookupMethod ContextTransactor.methods "Query" =
      some ⟨[.string, .variadicAny], [.Rows, .error]⟩ ∧
    lookupMethod PGXPoolContextTransactor.methods "QueryRow" =
      some ⟨[.Context, .string, .variadicAny], [.Row]⟩ ∧
    lookupMethod ContextTransactor.methods "QueryRow" = some ⟨[.string, .variadicAny], [.Row]⟩ ∧
    lookupMethod PGXPoolContextTransactor.methods "Commit" =
      lookupMethod ContextTransactor.methods "Commit" ∧
    lookupMethod PGXPoolContextTransactor.methods "ExecContext" =
      lookupMethod ContextTransactor.methods "ExecContext" ∧
    lookupMethod PGXPoolContextTransactor.methods "QueryContext" =
      lookupMethod ContextTransactor.methods "QueryContext" ∧
    lookupMethod PGXPoolContextTransactor.methods "QueryRowContext" =
      lookupMethod ContextTransactor.methods "QueryRowContext" ∧
    implements PGXPoolTransactor.methods Transactor.methods = true := by
  refine ⟨?_, by decide⟩
  intro embedded
  simp [implements, PGXPoolContextExecutor.methods, structMethods, ContextExecutor.methods,
    Executor.methods]

/-- C8: after `SetDB h`, `GetDB` returns exactly `h`, hence a non-nil handle
when `h` is non-nil, and nothing else of the world changes.  `h` is the handle
`Begin` and `BeginTx` then inspect: their type assertions see `h`, and when `h`
has the capability it is the `Begin`, resp. `BeginTx`, of `h` they invoke. -/
theorem GetDB_SetDB {σ : Type} (h : Option (Handle σ)) (w : World σ) :
    GetDB (SetDB h w) = h ∧
    (h ≠ none → GetDB (SetDB h w) ≠ none) ∧
    (SetDB h w).currentDB = h ∧
    (SetDB h w).drv = w.drv ∧
    (SetDB h w).log = w.log ∧
    Handle.assertBeginner (SetDB h w).currentDB = Handle.assertBeginner h ∧
    Handle.assertContextBeginner (SetDB h w).currentDB = Handle.assertContextBeginner h ∧
    (∀ d b, h = some d → d.onBegin = some b →
      (Begin (SetDB h w)).2 = (SetDB h w).record (Call.Begin d.id) (b w.drv).2) ∧
    (∀ d b ctx opts, h = some d → d.onBeginTx = some b →
      (BeginTx ctx opts (SetDB h w)).2 =
        (SetDB h w).record (Call.BeginTx d.id ctx opts) (b ctx opts w.drv).2) := by
  refine ⟨rfl, fun hne => hne, rfl, rfl, rfl, rfl, rfl, ?_, ?_⟩
  · intro d b hd hb
    subst hd
    simp only [Begin, SetDB, Handle.assertBeginner, hb, Beginner.Begin]
    cases (b w.drv).1.2 <;> rfl
  · intro d b ctx opts hd hb
    subst hd
    simp only [BeginTx, SetDB, Handle.assertContextBeginner, hb, ContextBeginner.BeginTx]
    cases (b ctx opts w.drv).1.2 <;> rfl

/-- Witness of C8: the stub handle is installed over the handle without
capabilities, read back, and it is its `Begin` that `Begin` invokes. -/
theorem GetDB_SetDB_witness :
    GetDB (SetDB (some stub.db) (stub.world (some stub.plain))) ≠ none ∧
    (Begin (SetDB (some stub.db) (stub.world (some stub.plain)))).2 =
      (SetDB (some stub.db) (stub.world (some stub.plain))).record (Call.Begin 1) 0 :=
  have key := GetDB_SetDB (some stub.db) (stub.world (some stub.plain))
  ⟨key.2.1 (by simp), key.2.2.2.2.2.2.2.1 stub.db _ rfl rfl⟩

/-- C9: `ExecContext`, `QueryContext` and `QueryRowContext`, on the pool adapter
and on the context transaction adapter wrapping the transaction `t`, invoke the
wrapped handle's `Exec`, `Query`, resp. `QueryRow` exactly once, with the
caller's `ctx` itself, the same query and the same arguments, and return that
invocation's results and error unchanged. -/
theorem context_methods_forward {σ : Type} (ctx : context.Context) (query : String)
    (args : List Value) (w : World σ) :
    (∀ p : PGXPoolContextExecutor σ,
      p.ExecContext ctx query args w =
        ((p.Pool.onExec ctx query args w.drv).1,
          w.record (Call.Exec p.Pool.id ctx query args) (p.Pool.onExec ctx query args w.drv).2) ∧
      p.QueryContext ctx query args w =
        ((p.Pool.onQuery ctx query args w.drv).1,
          w.record (Call.Query p.Pool.id ctx query args) (p.Pool.onQuery ctx query args w.drv).2) ∧
      p.QueryRowContext ctx query args w =
        ((p.Pool.onQueryRow ctx query args w.drv).1,
          w.record (Call.QueryRow p.Pool.id ctx query args)
            (p.Pool.onQueryRow ctx query args w.drv).2)) ∧
    (∀ (p : PGXPoolContextTransactor σ) (t : pgx.TxImpl σ), p.Tx = some t →
      p.ExecContext ctx query args w =
        (Outcome.ret (t.onExec ctx query args w.drv).1,
          w.record (Call.Exec t.id ctx query args) (t.onExec ctx query args w.drv).2) ∧
      p.QueryContext ctx query args w =
        (Outcome.ret (t.onQuery ctx query args w.drv).1,
          w.record (Call.Query t.id ctx query args) (t.onQuery ctx query args w.drv).2) ∧
      p.QueryRowContext ctx query args w =
        (Outcome.ret (t.onQueryRow ctx query args w.drv).1,
          w.record (Call.QueryRow t.id ctx query args) (t.onQueryRow ctx query args w.drv).2)) := by
  refine ⟨fun p => ⟨rfl, rfl, rfl⟩, ?_⟩
  intro p t hp
  simp only [PGXPoolContextTransactor.ExecContext, PGXPoolContextTransactor.QueryContext,
    PGXPoolContextTransactor.QueryRowContext, hp]
  exact ⟨rfl, rfl, rfl⟩

/-- Witness of C9 at the context transaction adapter around the stub
transaction, under a caller-supplied context. -/
theorem context_methods_forward_witness :
    PGXPoolContextTransactor.ExecContext { Tx := some stub.tx } (context.Context.derived 9 false)
        "DELETE FROM t WHERE id = $1" [Value.int 4] (stub.world none) =
      (Outcome.ret (⟨"DELETE FROM t WHERE id = $1"⟩, none),
        (stub.world none).record
          (Call.Exec 7 (context.Context.derived 9 false) "DELETE FROM t WHERE id = $1"
            [Value.int 4]) 0) :=
  ((context_methods_forward (context.Context.derived 9 false) "DELETE FROM t WHERE id = $1"
    [Value.int 4] (stub.world none)).2 { Tx := some stub.tx } stub.tx rfl).1

/-- C10: for a capable current handle whose `Begin` (resp. `BeginTx`) answers
`(t, e)`, the package-level `Begin` (resp. `BeginTx`) returns after that single
invocation, with the error `e`, a nil value exactly when `e` is non-nil and a
non-nil adapter, wrapping `t`, exactly when `e` is nil.  So a transaction handle
returned next to an error is dropped with no rollback or commit invoked, and a
nil transaction handle returned with a nil error comes back wrapped in a
non-nil adapter with a nil error. -/
theorem begin_result_nil_iff_error {σ : Type} (w : World σ) (h : Handle σ)
    (hdb : w.currentDB = some h) :
    (∀ b, h.onBegin = some b →
      ∃ r, Begin w = (Outcome.ret r, w.record (Call.Begin h.id) (b w.drv).2) ∧
        r.2 = (b w.drv).1.2 ∧
        (r.1 = none ↔ (b w.drv).1.2 ≠ none) ∧
        (r.1.isSome = true ↔ (b w.drv).1.2 = none) ∧
        ((b w.drv).1.2 = none → r.1 = some { Tx := (b w.drv).1.1 }) ∧
        ((b w.drv).1 = (none, none) → r = (some { Tx := none }, none))) ∧
    (∀ b ctx opts, h.onBeginTx = some b →
      ∃ r, BeginTx ctx opts w =
          (Outcome.ret r, w.record (Call.BeginTx h.id ctx opts) (b ctx opts w.drv).2) ∧
        r.2 = (b ctx opts w.drv).1.2 ∧
        (r.1 = none ↔ (b ctx opts w.drv).1.2 ≠ none) ∧
        (r.1.isSome = true ↔ (b ctx opts w.drv).1.2 = none) ∧
        ((b ctx opts w.drv).1.2 = none → r.1 = some { Tx := (b ctx opts w.drv).1.1 }) ∧
        ((b ctx opts w.drv).1 = (none, none) → r = (some { Tx := none }, none))) := by
  constructor
  · intro b hb
    rcases hres : b w.drv with ⟨⟨t, e⟩, s⟩
    cases e with
    | none =>
      refine ⟨(some { Tx := t }, none), ?_, ?_⟩
      · simp [Begin, Handle.assertBeginner, hdb, hb, Beginner.Begin, hres]
      · refine ⟨rfl, by simp, by simp, fun _ => rfl, ?_⟩
        intro ht
        simp only [Prod.mk.injEq, and_true] at ht
        rw [ht]
    | some e =>
      refine ⟨(none, some e), ?_, ?_⟩
      · simp [Begin, Handle.assertBeginner, hdb, hb, Beginner.Begin, hres]
      · simp
  · intro b ctx opts hb
    rcases hres : b ctx opts w.drv with ⟨⟨t, e⟩, s⟩
    cases e with
    | none =>
      refine ⟨(some { Tx := t }, none), ?_, ?_⟩
      · simp [BeginTx, Handle.assertContextBeginner, hdb, hb, ContextBeginner.BeginTx, hres]
      · refine ⟨rfl, by simp, by simp, fun _ => rfl, ?_⟩
        intro ht
        simp only [Prod.mk.injEq, and_true] at ht
        rw [ht]
    | some e =>
      refine ⟨(none, some e), ?_, ?_⟩
      · simp [BeginTx, Handle.assertContextBeginner, hdb, hb, ContextBeginner.BeginTx, hres]
      · simp

/-- Witness of C10 at the stub handle whose `Begin` returns a transaction
handle together with an error: the result is nil and only `Begin` was invoked. -/
theorem begin_result_nil_iff_error_witness :
    ∃ r, Begin (stub.world (some stub.failing)) =
        (Outcome.ret r, (stub.world (some stub.failing)).record (Call.Begin 4) 1) ∧
      r.2 = some ⟨"connection refused"⟩ ∧ r.1 = none :=
  match (begin_result_nil_iff_error (stub.world (some stub.failing)) stub.failing rfl).1
      (fun n => ((some stub.tx, some ⟨"connection refused"⟩), n + 1)) rfl with
  | ⟨r, hr, he, hnil, _⟩ => ⟨r, hr, he, hnil.2 (by simp)⟩

end boil
